import Mathlib

/-!
Shallow embedding of `app.py` (AgriDiag, a Streamlit page that sends uploaded
plant images together with fixed prompts to the Gemini API and shows the
replies as cards).

The script is straight-line code executed once per page run.  External effects
are parameters of the embedding:
  * `generate`       : the Gemini `client.models.generate_content` call, which
                       either returns the reply text or raises (modelled as
                       `Except`); every request handed to it is also logged so
                       that call counts and request shapes can be stated;
  * `pilOpen`        : `PIL.Image.open` on the raw uploaded bytes;
  * `convertSaveJpeg`: `image.convert("RGB").save(buf, format="JPEG",
                       quality=90)` followed by `buf.getvalue()`.
Bytes are modelled as `List Nat`, Python floats by `ℚ` (the sizes involved are
integers below 2^53 divided by a power of two, where binary floating point is
exact), and `st.session_state.results` as the list of results carried from one
page run to the next.
-/

set_option maxRecDepth 16000

namespace AgroApp

/-- A result card held in `st.session_state.results`
(a dict with keys `"title"` and `"content"`). -/
structure ResultEntry where
  title : String
  content : String
deriving DecidableEq

/-- The request shape handed to `client.models.generate_content`: one
`types.Part.from_bytes` image part plus the prompt text, the model name, and
the `thinking_budget` of the `GenerateContentConfig`. -/
structure GeminiRequest where
  data : List Nat
  mimeType : String
  prompt : String
  model : String
  thinkingBudget : Nat
deriving DecidableEq

/-- The request built inside `call_gemini_with_image`:
`types.Part.from_bytes(data=image_bytes, mime_type="image/jpeg")` together
with `prompt_text`, model `"gemini-2.5-flash"` and the thinking budget. -/
def geminiRequest (image_bytes : List Nat) (prompt_text : String)
    (thinking_budget : Nat) : GeminiRequest :=
  { data := image_bytes
    mimeType := "image/jpeg"
    prompt := prompt_text
    model := "gemini-2.5-flash"
    thinkingBudget := thinking_budget }

/-- `call_gemini_with_image` (app.py lines 128-141): build the request, invoke
the model once inside `try`, return `response.text` on success and the string
`"⚠️ Error calling Gemini API: " + str(e)` if anything raises.  The second
component logs the requests issued to `generate`. -/
def call_gemini_with_image (generate : GeminiRequest → Except String String)
    (image_bytes : List Nat) (prompt_text : String) (thinking_budget : Nat) :
    String × List GeminiRequest :=
  let req := geminiRequest image_bytes prompt_text thinking_budget
  match generate req with
  | Except.ok text => (text, [req])
  | Except.error e => ("⚠️ Error calling Gemini API: " ++ e, [req])

/-- The hardcoded diagnosis prompt (app.py lines 178-184). -/
def prompt_find_disease : String :=
  "You are an expert plant pathologist. Analyze all the image and:\n" ++
  "1️⃣ Identify the most likely disease(s) or disorders.\n" ++
  "2️⃣ Describe key visible symptoms.\n" ++
  "3️⃣ Suggest probable causal agents (fungus/bacteria/virus/stress).\n" ++
  "4️⃣ Give confidence level and further confirmation steps.note..please remind strictly that you have to give every response in Bengali language"

/-- The hardcoded advice prompt (app.py lines 186-192). -/
def prompt_suggestions : String :=
  "You are an experienced crop protection specialist. Based on the supplied image and probable issue, give:\n" ++
  "A) Immediate actions (removal, isolation, sanitation)\n" ++
  "B) Cultural/non-chemical solutions\n" ++
  "C) Chemical options (types, active ingredients, safety notes)\n" ++
  "D) Monitoring plan and follow-up guidance.note..please remind strictly that you have to give every response in Bengali language"

/-- The free-form prompt (app.py lines 222-226), interpolating the user's
typed question. -/
def combined_prompt (custom_user_prompt : String) : String :=
  "You are a helpful plant pathology assistant. Use the image(s) to inform your answer.\n\n" ++
  "User question: " ++ custom_user_prompt ++ "\n\n" ++
  "Provide a concise, practical answer and list any assumptions you made.note..please remind strictly that you have to give every response in Bengali language"

/-- Title of the card appended for image number `n` by the Find Disease
handler (`idx+1` is 1-based). -/
def find_disease_title (n : Nat) : String :=
  "🔬 Likely Disease(s) & Diagnostic Clues (Image " ++ toString n ++ ")"

/-- Title of the card appended for image number `n` by the Suggestions
handler. -/
def suggestions_title (n : Nat) : String :=
  "🩺 Practical Suggestions & Monitoring Plan (Image " ++ toString n ++ ")"

/-- Title of the card appended for image number `n` by the custom-question
handler; it also interpolates the question text. -/
def custom_title (custom_user_prompt : String) (n : Nat) : String :=
  "❓ Answer to: " ++ custom_user_prompt ++ " (Image " ++ toString n ++ ")"

/-- Python's `enumerate` starting at `n`. -/
def enumFrom {α : Type} : Nat → List α → List (Nat × α)
  | _, [] => []
  | n, a :: as => (n, a) :: enumFrom (n + 1) as

/-- The loop shape shared verbatim by the three button handlers
(app.py lines 200-233): `for idx, img_bytes in enumerate(image_bytes_list)`,
call Gemini once, append a card titled with `idx+1`.  `idx` is the enumerate
counter of the head of the list in the Python code; handlers start it at 0. -/
def geminiLoopFrom (generate : GeminiRequest → Except String String)
    (prompt_text : String) (thinking_budget : Nat) (titleOf : Nat → String) :
    Nat → List (List Nat) → List ResultEntry × List GeminiRequest
  | _, [] => ([], [])
  | idx, image_bytes :: rest =>
    let called := call_gemini_with_image generate image_bytes prompt_text thinking_budget
    let rec_rest := geminiLoopFrom generate prompt_text thinking_budget titleOf (idx + 1) rest
    ({ title := titleOf (idx + 1), content := called.1 } :: rec_rest.1,
     called.2 ++ rec_rest.2)

/-- The `if find_disease:` handler (app.py lines 200-207): one Gemini call per
converted image with the diagnosis prompt and thinking budget 500. -/
def find_disease_handler (generate : GeminiRequest → Except String String)
    (image_bytes_list : List (List Nat)) : List ResultEntry × List GeminiRequest :=
  geminiLoopFrom generate prompt_find_disease 500 find_disease_title 0 image_bytes_list

/-- The `if suggestions:` handler (app.py lines 209-216): one Gemini call per
converted image with the advice prompt and thinking budget 400. -/
def suggestions_handler (generate : GeminiRequest → Except String String)
    (image_bytes_list : List (List Nat)) : List ResultEntry × List GeminiRequest :=
  geminiLoopFrom generate prompt_suggestions 400 suggestions_title 0 image_bytes_list

/-- Warnings the page can show (`st.warning`). -/
inductive PageWarning where
  /-- `st.warning` at app.py line 175, carrying `total_size_mb`. -/
  | oversize (total_size_mb : ℚ)
  /-- `st.warning("⚠️ Please type a custom question first.")` at line 220. -/
  | emptyCustomQuestion
deriving DecidableEq

/-- Python's `str.strip()` with no argument: remove leading and trailing
whitespace. -/
def strip (s : String) : String :=
  String.mk (((s.data.dropWhile Char.isWhitespace).reverse.dropWhile
      Char.isWhitespace).reverse)

/-- The `if custom_question:` handler (app.py lines 218-233): warn and do
nothing when the stripped question is empty, otherwise one Gemini call per
converted image with the interpolated free-form prompt and thinking budget
200. -/
def custom_question_handler (generate : GeminiRequest → Except String String)
    (custom_user_prompt : String) (image_bytes_list : List (List Nat)) :
    List ResultEntry × List GeminiRequest × List PageWarning :=
  if strip custom_user_prompt = "" then
    ([], [], [PageWarning.emptyCustomQuestion])
  else
    let looped := geminiLoopFrom generate (combined_prompt custom_user_prompt) 200
        (custom_title custom_user_prompt) 0 image_bytes_list
    (looped.1, looped.2, [])

/-- One file handed back by `st.file_uploader`: a name and raw bytes. -/
structure UploadedFile where
  name : String
  content : List Nat
deriving DecidableEq

/-- The configuration of the `st.file_uploader` call (app.py lines 77-81). -/
structure FileUploaderConfig where
  label : String
  types : List String
  acceptMultipleFiles : Bool
deriving DecidableEq

/-- The upload widget of the sidebar. -/
def uploadWidget : FileUploaderConfig :=
  { label := "Choose a plant image (leaf, stem, fruit)"
    types := ["jpg", "jpeg", "png", "webp", "heic"]
    acceptMultipleFiles := true }

/-- The per-file processing loop (app.py lines 154-170): try to open each
file, display it, convert to RGB JPEG bytes; on any exception show an error
and `continue`.  Returns `(images, image_bytes_list, errors)`.  Note that when
opening succeeds but conversion raises, the image is already in `images` while
no bytes are appended. -/
def processUploads {Image : Type} (pilOpen : List Nat → Except String Image)
    (convertSaveJpeg : Image → Except String (List Nat)) :
    List UploadedFile → List Image × List (List Nat) × List String
  | [] => ([], [], [])
  | file :: rest =>
    match pilOpen file.content with
    | Except.error e =>
      let done := processUploads pilOpen convertSaveJpeg rest
      (done.1, done.2.1, ("Couldn't open image " ++ file.name ++ ": " ++ e) :: done.2.2)
    | Except.ok image =>
      match convertSaveJpeg image with
      | Except.error e =>
        let done := processUploads pilOpen convertSaveJpeg rest
        (image :: done.1, done.2.1,
         ("Couldn't open image " ++ file.name ++ ": " ++ e) :: done.2.2)
      | Except.ok image_bytes =>
        let done := processUploads pilOpen convertSaveJpeg rest
        (image :: done.1, image_bytes :: done.2.1, done.2.2)

/-- `total_size_mb = sum(len(b) for b in image_bytes_list) / (1024 * 1024)`
(app.py line 173).  Python float arithmetic is exact here (integer below 2^53
divided by a power of two), so `ℚ` models it faithfully. -/
def total_size_mb (image_bytes_list : List (List Nat)) : ℚ :=
  ((image_bytes_list.map List.length).sum : ℚ) / (1024 * 1024)

/-- The oversize test `if total_size_mb > 18:` (app.py line 174). -/
def oversize_warning (image_bytes_list : List (List Nat)) : Bool :=
  decide (total_size_mb image_bytes_list > 18)

/-- The HTML card markdown for one result (app.py lines 240-255). -/
def cardHtml (result : ResultEntry) : String :=
  "<div style=\"background-color: rgba(255,255,255,0.9); border-radius: 15px; padding: 1.2rem; box-shadow: 0 4px 10px rgba(0,0,0,0.08); margin-bottom: 1rem; border: 1px solid #e5e5e5;\">" ++
  "<h4 style=\"color:#2b7a0b;\">" ++ result.title ++ "</h4>" ++
  "<p style=\"color:#333; font-size:16px; line-height:1.6;\">" ++
  result.content ++ "</p></div>"

/-- One results-feed block (app.py lines 236-255): nothing when the results
list is empty (falsy), otherwise a divider, the feed header, and one card per
result iterated over `reversed(st.session_state.results)`. -/
def displayResults (results : List ResultEntry) : List String :=
  if results = [] then []
  else "---" :: "### 🌾 Results Feed" :: (results.reverse.map cardHtml)

/-- The rendered results section of one page run: the feed block appears twice
in the source, verbatim (app.py lines 236-255 and 257-277). -/
def resultsSection (results : List ResultEntry) : List String :=
  displayResults results ++ displayResults results

/-- The widget values of one page run: the uploader list, the four sidebar
buttons, and the custom-question text input. -/
structure PageInputs where
  uploaded_file : List UploadedFile
  find_disease : Bool
  suggestions : Bool
  custom_question : Bool
  clear_results : Bool
  custom_user_prompt : String

/-- What one page run produced: the new `st.session_state.results`, the Gemini
requests issued, the warnings and per-file errors shown, and the rendered
results-feed section. -/
structure RunResult where
  results : List ResultEntry
  requests : List GeminiRequest
  warnings : List PageWarning
  errors : List String
  rendered : List String

/-- One full page run of app.py, from the session-state block (lines 118-123)
to the results feed: `prior_results` is `st.session_state.results` left by the
previous run.  `clear_results` empties the list and calls `st.rerun()`, which
restarts the script; the restart is a later `runPage` with every button
released.  With no uploaded files only the info message shows (lines
282-283).  Otherwise the files are processed, the oversize warning checked,
the pressed handlers run in source order, and the feed section rendered. -/
def runPage {Image : Type} (generate : GeminiRequest → Except String String)
    (pilOpen : List Nat → Except String Image)
    (convertSaveJpeg : Image → Except String (List Nat))
    (inputs : PageInputs) (prior_results : List ResultEntry) : RunResult :=
  if inputs.clear_results then
    { results := [], requests := [], warnings := [], errors := [], rendered := [] }
  else if inputs.uploaded_file = [] then
    { results := prior_results, requests := [], warnings := [], errors := [],
      rendered := [] }
  else
    let processed := processUploads pilOpen convertSaveJpeg inputs.uploaded_file
    let image_bytes_list := processed.2.1
    let size_warnings :=
      if oversize_warning image_bytes_list then
        [PageWarning.oversize (total_size_mb image_bytes_list)]
      else []
    let fd := if inputs.find_disease then find_disease_handler generate image_bytes_list
      else ([], [])
    let sg := if inputs.suggestions then suggestions_handler generate image_bytes_list
      else ([], [])
    let cq := if inputs.custom_question then
        custom_question_handler generate inputs.custom_user_prompt image_bytes_list
      else ([], [], [])
    let results := prior_results ++ fd.1 ++ sg.1 ++ cq.1
    { results := results
      requests := fd.2 ++ sg.2 ++ cq.2.1
      warnings := size_warnings ++ cq.2.2
      errors := processed.2.2
      rendered := resultsSection results }

/-! ### Helper lemmas -/

/-- `call_gemini_with_image` logs exactly the one request it builds,
whatever `generate` does. -/
theorem call_gemini_requests (generate : GeminiRequest → Except String String)
    (image_bytes : List Nat) (prompt_text : String) (thinking_budget : Nat) :
    (call_gemini_with_image generate image_bytes prompt_text thinking_budget).2 =
      [geminiRequest image_bytes prompt_text thinking_budget] := by
  cases h : generate (geminiRequest image_bytes prompt_text thinking_budget) <;>
    simp [call_gemini_with_image, h]

/-- Closed form of the shared handler loop: entries come from enumerating the
byte strings and each byte string yields exactly one request. -/
theorem geminiLoopFrom_eq (generate : GeminiRequest → Except String String)
    (prompt_text : String) (thinking_budget : Nat) (titleOf : Nat → String) :
    ∀ (idx : Nat) (image_bytes_list : List (List Nat)),
    geminiLoopFrom generate prompt_text thinking_budget titleOf idx image_bytes_list =
      ((enumFrom idx image_bytes_list).map fun pr =>
          { title := titleOf (pr.1 + 1)
            content := (call_gemini_with_image generate pr.2 prompt_text thinking_budget).1 },
       image_bytes_list.map fun image_bytes =>
          geminiRequest image_bytes prompt_text thinking_budget)
  | _, [] => rfl
  | idx, image_bytes :: rest => by
    rw [geminiLoopFrom, geminiLoopFrom_eq generate prompt_text thinking_budget titleOf
      (idx + 1) rest]
    simp [enumFrom, call_gemini_requests]

/-- Enumerating then keeping only the counters gives a counted range. -/
theorem enumFrom_map_fst {α β : Type} (f : Nat → β) :
    ∀ (idx : Nat) (l : List α),
    (enumFrom idx l).map (fun pr => f pr.1) = (List.range' idx l.length).map f
  | _, [] => rfl
  | idx, a :: as => by
    rw [enumFrom, List.length_cons, List.range'_succ]
    simp [enumFrom_map_fst f (idx + 1) as]

/-- The float comparison `total_size_mb > 18` holds exactly when the summed
byte length exceeds `18 * 1024 * 1024` bytes. -/
theorem oversize_warning_iff (image_bytes_list : List (List Nat)) :
    oversize_warning image_bytes_list = true ↔
      18 * (1024 * 1024) < (image_bytes_list.map List.length).sum := by
  unfold oversize_warning total_size_mb
  rw [decide_eq_true_iff, gt_iff_lt, lt_div_iff₀ (by norm_num)]
  have h18 : (18 : ℚ) * (1024 * 1024) = ((18 * (1024 * 1024) : ℕ) : ℚ) := by
    push_cast; ring
  rw [h18, Nat.cast_lt]

/-- Appending a string does not change a left-associated append; String
associativity via the underlying character lists. -/
theorem str_append_assoc (a b c : String) : a ++ b ++ c = a ++ (b ++ c) := by
  apply String.ext
  simp [String.data_append, List.append_assoc]

/-- Pressing the clear button empties the session results list and reruns the
script before anything else can happen. -/
theorem runPage_clear {Image : Type} (generate : GeminiRequest → Except String String)
    (pilOpen : List Nat → Except String Image)
    (convertSaveJpeg : Image → Except String (List Nat))
    (inputs : PageInputs) (prior : List ResultEntry)
    (hc : inputs.clear_results = true) :
    runPage generate pilOpen convertSaveJpeg inputs prior =
      { results := [], requests := [], warnings := [], errors := [], rendered := [] } := by
  simp [runPage, hc]

/-- With no uploaded files the run only shows the info message. -/
theorem runPage_no_upload {Image : Type} (generate : GeminiRequest → Except String String)
    (pilOpen : List Nat → Except String Image)
    (convertSaveJpeg : Image → Except String (List Nat))
    (inputs : PageInputs) (prior : List ResultEntry)
    (hc : inputs.clear_results = false) (hu : inputs.uploaded_file = []) :
    runPage generate pilOpen convertSaveJpeg inputs prior =
      { results := prior, requests := [], warnings := [], errors := [], rendered := [] } := by
  simp [runPage, hc, hu]

/-- The main branch of a page run, spelled out: files are converted, the
oversize warning is checked against the converted bytes, the pressed handlers
run in source order appending to the prior results, and the feed section is
rendered from the new list. -/
theorem runPage_main {Image : Type} (generate : GeminiRequest → Except String String)
    (pilOpen : List Nat → Except String Image)
    (convertSaveJpeg : Image → Except String (List Nat))
    (inputs : PageInputs) (prior : List ResultEntry)
    (hc : inputs.clear_results = false) (hu : inputs.uploaded_file ≠ []) :
    runPage generate pilOpen convertSaveJpeg inputs prior =
      { results := prior ++
          ((if inputs.find_disease then
              (find_disease_handler generate
                (processUploads pilOpen convertSaveJpeg inputs.uploaded_file).2.1).1
            else []) ++
           (if inputs.suggestions then
              (suggestions_handler generate
                (processUploads pilOpen convertSaveJpeg inputs.uploaded_file).2.1).1
            else []) ++
           (if inputs.custom_question then
              (custom_question_handler generate inputs.custom_user_prompt
                (processUploads pilOpen convertSaveJpeg inputs.uploaded_file).2.1).1
            else []))
        requests :=
          (if inputs.find_disease then
              (find_disease_handler generate
                (processUploads pilOpen convertSaveJpeg inputs.uploaded_file).2.1).2
            else []) ++
          (if inputs.suggestions then
              (suggestions_handler generate
                (processUploads pilOpen convertSaveJpeg inputs.uploaded_file).2.1).2
            else []) ++
          (if inputs.custom_question then
              (custom_question_handler generate inputs.custom_user_prompt
                (processUploads pilOpen convertSaveJpeg inputs.uploaded_file).2.1).2.1
            else [])
        warnings :=
          (if oversize_warning (processUploads pilOpen convertSaveJpeg inputs.uploaded_file).2.1 then
              [PageWarning.oversize
                (total_size_mb (processUploads pilOpen convertSaveJpeg inputs.uploaded_file).2.1)]
            else []) ++
          (if inputs.custom_question then
              (custom_question_handler generate inputs.custom_user_prompt
                (processUploads pilOpen convertSaveJpeg inputs.uploaded_file).2.1).2.2
            else [])
        errors := (processUploads pilOpen convertSaveJpeg inputs.uploaded_file).2.2
        rendered := resultsSection (prior ++
          ((if inputs.find_disease then
              (find_disease_handler generate
                (processUploads pilOpen convertSaveJpeg inputs.uploaded_file).2.1).1
            else []) ++
           (if inputs.suggestions then
              (suggestions_handler generate
                (processUploads pilOpen convertSaveJpeg inputs.uploaded_file).2.1).1
            else []) ++
           (if inputs.custom_question then
              (custom_question_handler generate inputs.custom_user_prompt
                (processUploads pilOpen convertSaveJpeg inputs.uploaded_file).2.1).1
            else []))) } := by
  cases hf : inputs.find_disease <;> cases hs : inputs.suggestions <;>
    cases hq : inputs.custom_question <;>
      simp [runPage, hc, hu, hf, hs, hq, List.append_assoc]

/-! ### The claims -/

/-- C1: for every image-bytes input and prompt, `call_gemini_with_image`
either returns the text produced by the external model call or, if the call
raises, the string `"⚠️ Error calling Gemini API: "` followed by the
exception; it never propagates the exception (the result is total), and the
single try/except covers exactly one network call, with no retry. -/
theorem c1_bridge_text_or_error_string (generate : GeminiRequest → Except String String)
    (image_bytes : List Nat) (prompt_text : String) (thinking_budget : Nat) :
    (call_gemini_with_image generate image_bytes prompt_text thinking_budget).2 =
      [geminiRequest image_bytes prompt_text thinking_budget] ∧
    ((∃ text, generate (geminiRequest image_bytes prompt_text thinking_budget) =
          Except.ok text ∧
        (call_gemini_with_image generate image_bytes prompt_text thinking_budget).1 = text) ∨
     (∃ e, generate (geminiRequest image_bytes prompt_text thinking_budget) =
          Except.error e ∧
        (call_gemini_with_image generate image_bytes prompt_text thinking_budget).1 =
          "⚠️ Error calling Gemini API: " ++ e)) := by
  refine ⟨call_gemini_requests generate image_bytes prompt_text thinking_budget, ?_⟩
  cases h : generate (geminiRequest image_bytes prompt_text thinking_budget) with
  | error e => exact Or.inr ⟨e, rfl, by simp [call_gemini_with_image, h]⟩
  | ok text => exact Or.inl ⟨text, rfl, by simp [call_gemini_with_image, h]⟩

/-- C5: the upload widget accepts multiple files, and a press of Find Disease
or Suggestions issues exactly one model call per converted image, in list
order, each producing its own result entry titled with the 1-based image
index. -/
theorem c5_one_call_and_card_per_image (generate : GeminiRequest → Except String String)
    (image_bytes_list : List (List Nat)) :
    uploadWidget.acceptMultipleFiles = true ∧
    (find_disease_handler generate image_bytes_list).2 =
      image_bytes_list.map
        (fun image_bytes => geminiRequest image_bytes prompt_find_disease 500) ∧
    (find_disease_handler generate image_bytes_list).1.map ResultEntry.title =
      (List.range image_bytes_list.length).map (fun idx => find_disease_title (idx + 1)) ∧
    (suggestions_handler generate image_bytes_list).2 =
      image_bytes_list.map
        (fun image_bytes => geminiRequest image_bytes prompt_suggestions 400) ∧
    (suggestions_handler generate image_bytes_list).1.map ResultEntry.title =
      (List.range image_bytes_list.length).map (fun idx => suggestions_title (idx + 1)) := by
  refine ⟨rfl, ?_, ?_, ?_, ?_⟩
  · rw [find_disease_handler, geminiLoopFrom_eq]
  · rw [find_disease_handler, geminiLoopFrom_eq, List.map_map, List.range_eq_range']
    exact enumFrom_map_fst (fun n => find_disease_title (n + 1)) 0 image_bytes_list
  · rw [suggestions_handler, geminiLoopFrom_eq]
  · rw [suggestions_handler, geminiLoopFrom_eq, List.map_map, List.range_eq_range']
    exact enumFrom_map_fst (fun n => suggestions_title (n + 1)) 0 image_bytes_list

/-- C7: no retry and no cache around the external call: each button press
issues exactly one model call per converted image (zero for a blank custom
question), whatever `generate` returns, and the requests a run issues do not
depend on the session results carried over from earlier runs, so repeating a
press issues fresh calls instead of reusing a prior result. -/
theorem c7_one_shot_calls_no_reuse {Image : Type}
    (generate : GeminiRequest → Except String String)
    (pilOpen : List Nat → Except String Image)
    (convertSaveJpeg : Image → Except String (List Nat))
    (image_bytes_list : List (List Nat)) (custom_user_prompt : String)
    (inputs : PageInputs) (prior prior' : List ResultEntry) :
    (find_disease_handler generate image_bytes_list).2.length = image_bytes_list.length ∧
    (suggestions_handler generate image_bytes_list).2.length = image_bytes_list.length ∧
    (custom_question_handler generate custom_user_prompt image_bytes_list).2.1.length =
      (if strip custom_user_prompt = "" then 0 else image_bytes_list.length) ∧
    (runPage generate pilOpen convertSaveJpeg inputs prior).requests =
      (runPage generate pilOpen convertSaveJpeg inputs prior').requests := by
  refine ⟨?_, ?_, ?_, ?_⟩
  · rw [find_disease_handler, geminiLoopFrom_eq]
    exact List.length_map image_bytes_list _
  · rw [suggestions_handler, geminiLoopFrom_eq]
    exact List.length_map image_bytes_list _
  · rw [custom_question_handler]
    split
    · rfl
    · rw [geminiLoopFrom_eq]
      simp
  · cases hc : inputs.clear_results
    · by_cases hu : inputs.uploaded_file = []
      · rw [runPage_no_upload generate pilOpen convertSaveJpeg inputs prior hc hu,
          runPage_no_upload generate pilOpen convertSaveJpeg inputs prior' hc hu]
      · rw [runPage_main generate pilOpen convertSaveJpeg inputs prior hc hu,
          runPage_main generate pilOpen convertSaveJpeg inputs prior' hc hu]
    · rw [runPage_clear generate pilOpen convertSaveJpeg inputs prior hc,
        runPage_clear generate pilOpen convertSaveJpeg inputs prior' hc]

/-- Every request logged by a handler loop carries the JPEG mime type, the
fixed model name, the loop's prompt and budget, and one of the converted byte
strings. -/
theorem geminiLoopFrom_requests_mem (generate : GeminiRequest → Except String String)
    (prompt_text : String) (thinking_budget : Nat) (titleOf : Nat → String)
    (idx : Nat) (image_bytes_list : List (List Nat)) :
    ∀ req ∈ (geminiLoopFrom generate prompt_text thinking_budget titleOf idx
        image_bytes_list).2,
      req.mimeType = "image/jpeg" ∧ req.model = "gemini-2.5-flash" ∧
      req.prompt = prompt_text ∧ req.thinkingBudget = thinking_budget ∧
      req.data ∈ image_bytes_list := by
  rw [geminiLoopFrom_eq]
  intro req hreq
  simp only [List.mem_map] at hreq
  obtain ⟨image_bytes, hb, rfl⟩ := hreq
  exact ⟨rfl, rfl, rfl, rfl, hb⟩

/-- Requests of the custom-question handler: same shape, with the interpolated
free-form prompt. -/
theorem custom_handler_requests_mem (generate : GeminiRequest → Except String String)
    (custom_user_prompt : String) (image_bytes_list : List (List Nat)) :
    ∀ req ∈ (custom_question_handler generate custom_user_prompt image_bytes_list).2.1,
      req.mimeType = "image/jpeg" ∧ req.model = "gemini-2.5-flash" ∧
      req.prompt = combined_prompt custom_user_prompt ∧
      req.data ∈ image_bytes_list := by
  rw [custom_question_handler]
  split
  · intro req hreq
    simp at hreq
  · intro req hreq
    have h := geminiLoopFrom_requests_mem generate (combined_prompt custom_user_prompt)
      200 (custom_title custom_user_prompt) 0 image_bytes_list req hreq
    exact ⟨h.1, h.2.1, h.2.2.1, h.2.2.2.2⟩

/-- C4: at the bridge boundary the data format is exactly JPEG bytes in, text
out: every request a page run issues to the model carries mime type
`image/jpeg`, the fixed model name, and one of the RGB-JPEG-converted byte
strings of the successfully opened uploads — whatever the uploaded format was
— and on success the bridge returns the model's text unchanged. -/
theorem c4_bridge_boundary_jpeg_in_text_out {Image : Type}
    (generate : GeminiRequest → Except String String)
    (pilOpen : List Nat → Except String Image)
    (convertSaveJpeg : Image → Except String (List Nat))
    (inputs : PageInputs) (prior : List ResultEntry) :
    (∀ req ∈ (runPage generate pilOpen convertSaveJpeg inputs prior).requests,
        req.mimeType = "image/jpeg" ∧ req.model = "gemini-2.5-flash" ∧
        req.data ∈ (processUploads pilOpen convertSaveJpeg inputs.uploaded_file).2.1) ∧
    (∀ (image_bytes : List Nat) (prompt_text : String) (thinking_budget : Nat)
        (text : String),
        generate (geminiRequest image_bytes prompt_text thinking_budget) =
          Except.ok text →
        (call_gemini_with_image generate image_bytes prompt_text thinking_budget).1 =
          text) := by
  constructor
  · intro req hreq
    cases hc : inputs.clear_results
    · by_cases hu : inputs.uploaded_file = []
      · rw [runPage_no_upload generate pilOpen convertSaveJpeg inputs prior hc hu] at hreq
        simp at hreq
      · rw [runPage_main generate pilOpen convertSaveJpeg inputs prior hc hu] at hreq
        simp only [List.mem_append] at hreq
        rcases hreq with (h | h) | h
        · split at h
          · have := geminiLoopFrom_requests_mem generate prompt_find_disease 500
              find_disease_title 0
              (processUploads pilOpen convertSaveJpeg inputs.uploaded_file).2.1 req h
            exact ⟨this.1, this.2.1, this.2.2.2.2⟩
          · simp at h
        · split at h
          · have := geminiLoopFrom_requests_mem generate prompt_suggestions 400
              suggestions_title 0
              (processUploads pilOpen convertSaveJpeg inputs.uploaded_file).2.1 req h
            exact ⟨this.1, this.2.1, this.2.2.2.2⟩
          · simp at h
        · split at h
          · have := custom_handler_requests_mem generate inputs.custom_user_prompt
              (processUploads pilOpen convertSaveJpeg inputs.uploaded_file).2.1 req h
            exact ⟨this.1, this.2.1, this.2.2.2⟩
          · simp at h
    · rw [runPage_clear generate pilOpen convertSaveJpeg inputs prior hc] at hreq
      simp at hreq
  · intro image_bytes prompt_text thinking_budget text h
    simp [call_gemini_with_image, h]

/-- C4 witness: a concrete run issues a JPEG-typed request, and a concrete
successful call returns the model text. -/
theorem c4_bridge_boundary_jpeg_in_text_out_witness :
    (geminiRequest [1] prompt_find_disease 500).mimeType = "image/jpeg" ∧
    (call_gemini_with_image (fun _ => Except.ok "leaf rust") [1]
        prompt_find_disease 500).1 = "leaf rust" := by
  constructor
  · exact ((c4_bridge_boundary_jpeg_in_text_out (fun _ => Except.ok "leaf rust")
      (fun _ : List Nat => Except.ok ()) (fun _ : Unit => Except.ok [1])
      { uploaded_file := [{ name := "leaf.jpg", content := [7] }]
        find_disease := true
        suggestions := false
        custom_question := false
        clear_results := false
        custom_user_prompt := "" } []).1
      (geminiRequest [1] prompt_find_disease 500) (by decide)).1
  · exact (c4_bridge_boundary_jpeg_in_text_out (fun _ => Except.ok "leaf rust")
      (fun _ : List Nat => Except.ok ()) (fun _ : Unit => Except.ok [1])
      { uploaded_file := [{ name := "leaf.jpg", content := [7] }]
        find_disease := true
        suggestions := false
        custom_question := false
        clear_results := false
        custom_user_prompt := "" } []).2 [1] prompt_find_disease 500 "leaf rust" rfl

/-- C3 counterexample: with the custom question "Is this rust?" typed and Find
Disease pressed, the prompt sent to the model is the verbatim hardcoded
diagnosis template: the user's input is not interpolated into it (it is not
even a substring), refuting "each of the three is interpolated with user
input". -/
theorem c3_counterexample_template_not_interpolated :
    (runPage (fun _ => Except.ok "ok") (fun _ : List Nat => Except.ok ())
        (fun _ : Unit => Except.ok [1])
        { uploaded_file := [{ name := "leaf.jpg", content := [7] }]
          find_disease := true
          suggestions := false
          custom_question := false
          clear_results := false
          custom_user_prompt := "Is this rust?" } []).requests =
      [geminiRequest [1] prompt_find_disease 500] ∧
    ¬ ("Is this rust?".data <:+: prompt_find_disease.data) := by
  constructor
  · decide
  · decide

/-- C3 amended: the prompt layer is exactly three hardcoded templates; the
free-form question template is interpolated with the user's question before
being sent, while the diagnosis and advice templates are sent verbatim with no
user input interpolated. -/
theorem c3_amended_only_custom_interpolated (generate : GeminiRequest → Except String String)
    (image_bytes_list : List (List Nat)) (custom_user_prompt : String) :
    (∀ req ∈ (find_disease_handler generate image_bytes_list).2,
        req.prompt = prompt_find_disease) ∧
    (∀ req ∈ (suggestions_handler generate image_bytes_list).2,
        req.prompt = prompt_suggestions) ∧
    (∀ req ∈ (custom_question_handler generate custom_user_prompt image_bytes_list).2.1,
        req.prompt = combined_prompt custom_user_prompt) ∧
    (∃ before after, combined_prompt custom_user_prompt =
        before ++ (custom_user_prompt ++ after)) := by
  refine ⟨?_, ?_, ?_, ?_⟩
  · intro req hreq
    exact (geminiLoopFrom_requests_mem generate prompt_find_disease 500
      find_disease_title 0 image_bytes_list req hreq).2.2.1
  · intro req hreq
    exact (geminiLoopFrom_requests_mem generate prompt_suggestions 400
      suggestions_title 0 image_bytes_list req hreq).2.2.1
  · intro req hreq
    exact (custom_handler_requests_mem generate custom_user_prompt
      image_bytes_list req hreq).2.2.1
  · refine ⟨"You are a helpful plant pathology assistant. Use the image(s) to inform your answer.\n\n" ++ "User question: ",
      "\n\n" ++ "Provide a concise, practical answer and list any assumptions you made.note..please remind strictly that you have to give every response in Bengali language", ?_⟩
    apply String.ext
    simp [combined_prompt, String.data_append, List.append_assoc]

/-- C3 amended witness: the requests of concrete presses carry exactly the
expected prompts. -/
theorem c3_amended_only_custom_interpolated_witness :
    (geminiRequest [5] prompt_find_disease 500).prompt = prompt_find_disease ∧
    (geminiRequest [5] prompt_suggestions 400).prompt = prompt_suggestions ∧
    (geminiRequest [5] (combined_prompt "q") 200).prompt = combined_prompt "q" :=
  ⟨(c3_amended_only_custom_interpolated (fun _ => Except.ok "ok") [[5]] "q").1
      (geminiRequest [5] prompt_find_disease 500) (by decide),
   (c3_amended_only_custom_interpolated (fun _ => Except.ok "ok") [[5]] "q").2.1
      (geminiRequest [5] prompt_suggestions 400) (by decide),
   (c3_amended_only_custom_interpolated (fun _ => Except.ok "ok") [[5]] "q").2.2.1
      (geminiRequest [5] (combined_prompt "q") 200) (by decide)⟩

/-- C2 counterexample: pressing Find Disease with one uploaded image is an
operation that reads the session results list persisted from earlier
interactions and changes it — the prior one-entry list becomes a two-entry
list extending it — refuting "no operation reads a value that persists across
user interactions and changes it". -/
theorem c2_counterexample_session_results_mutate :
    (runPage (fun _ => Except.ok "ok") (fun _ : List Nat => Except.ok ())
        (fun _ : Unit => Except.ok [1])
        { uploaded_file := [{ name := "leaf.jpg", content := [7] }]
          find_disease := true
          suggestions := false
          custom_question := false
          clear_results := false
          custom_user_prompt := "" }
        [{ title := "old", content := "old" }]).results ≠
      [{ title := "old", content := "old" }] ∧
    (runPage (fun _ => Except.ok "ok") (fun _ : List Nat => Except.ok ())
        (fun _ : Unit => Except.ok [1])
        { uploaded_file := [{ name := "leaf.jpg", content := [7] }]
          find_disease := true
          suggestions := false
          custom_question := false
          clear_results := false
          custom_user_prompt := "" }
        [{ title := "old", content := "old" }]).results =
      [{ title := "old", content := "old" },
       { title := find_disease_title 1, content := "ok" }] := by
  constructor
  · decide
  · decide

/-- C2 amended: the session results list is the one value that persists across
user interactions and changes: the clear button resets it to empty, and every
other run leaves it as the prior list with the pressed handlers' new entries
appended. -/
theorem c2_amended_results_list_is_the_state {Image : Type}
    (generate : GeminiRequest → Except String String)
    (pilOpen : List Nat → Except String Image)
    (convertSaveJpeg : Image → Except String (List Nat))
    (inputs : PageInputs) (prior : List ResultEntry) :
    (runPage generate pilOpen convertSaveJpeg
        { inputs with clear_results := true } prior).results = [] ∧
    ∃ appended, (runPage generate pilOpen convertSaveJpeg
        { inputs with clear_results := false } prior).results = prior ++ appended := by
  constructor
  · rw [runPage_clear generate pilOpen convertSaveJpeg
      { inputs with clear_results := true } prior rfl]
  · by_cases hu : inputs.uploaded_file = []
    · refine ⟨[], ?_⟩
      rw [runPage_no_upload generate pilOpen convertSaveJpeg
        { inputs with clear_results := false } prior rfl hu]
      simp
    · rw [runPage_main generate pilOpen convertSaveJpeg
        { inputs with clear_results := false } prior rfl hu]
      exact ⟨_, rfl⟩

/-- Every entry of a non-empty results list has its card in the feed block. -/
theorem cardHtml_mem_displayResults (result : ResultEntry) (rest : List ResultEntry)
    (r : ResultEntry) (hr : r ∈ result :: rest) :
    cardHtml r ∈ displayResults (result :: rest) := by
  rw [displayResults, if_neg (List.cons_ne_nil result rest)]
  exact List.mem_cons_of_mem _ (List.mem_cons_of_mem _
    (List.mem_map_of_mem cardHtml (List.mem_reverse.mpr hr)))

/-- C6: the feed block shows every entry of the (non-empty) results list as an
HTML card and iterates the list reversed, newest first. -/
theorem c6_feed_cards_newest_first (result : ResultEntry) (rest : List ResultEntry) :
    displayResults (result :: rest) =
      "---" :: "### 🌾 Results Feed" :: ((result :: rest).reverse.map cardHtml) ∧
    ∀ r ∈ result :: rest, cardHtml r ∈ displayResults (result :: rest) := by
  constructor
  · rw [displayResults, if_neg (List.cons_ne_nil result rest)]
  · exact cardHtml_mem_displayResults result rest

/-- C6 witness: one concrete appended entry is shown as a card. -/
theorem c6_feed_cards_newest_first_witness :
    cardHtml { title := "t", content := "c" } ∈
      displayResults [{ title := "t", content := "c" }] :=
  (c6_feed_cards_newest_first { title := "t", content := "c" } []).2
    { title := "t", content := "c" } (List.mem_singleton.mpr rfl)

/-- C8 counterexample: a page run whose carried-over results list is non-empty
but whose upload list is empty renders no feed at all (the duplicated feed
blocks sit inside the `if uploaded_file:` branch), so the feed block is not
executed twice on every run with non-empty results. -/
theorem c8_counterexample_no_feed_without_upload :
    ([{ title := "t", content := "c" }] : List ResultEntry) ≠ [] ∧
    (runPage (fun _ => Except.ok "ok") (fun _ : List Nat => Except.ok ())
        (fun _ : Unit => Except.ok [1])
        { uploaded_file := []
          find_disease := false
          suggestions := false
          custom_question := false
          clear_results := false
          custom_user_prompt := "" }
        [{ title := "t", content := "c" }]).rendered = [] := by
  constructor
  · decide
  · rfl

/-- C8 amended: on every page run with at least one uploaded file and a
non-empty results list, the feed block is executed twice — the rendering code
is duplicated verbatim — so each result card appears two times in the rendered
page, both times in newest-first order. -/
theorem c8_amended_feed_rendered_twice {Image : Type}
    (generate : GeminiRequest → Except String String)
    (pilOpen : List Nat → Except String Image)
    (convertSaveJpeg : Image → Except String (List Nat))
    (inputs : PageInputs) (prior : List ResultEntry)
    (result : ResultEntry) (rest : List ResultEntry) :
    resultsSection (result :: rest) =
      ("---" :: "### 🌾 Results Feed" :: ((result :: rest).reverse.map cardHtml)) ++
      ("---" :: "### 🌾 Results Feed" :: ((result :: rest).reverse.map cardHtml)) ∧
    (∀ r ∈ result :: rest,
        (resultsSection (result :: rest)).count (cardHtml r) =
          2 * (displayResults (result :: rest)).count (cardHtml r) ∧
        1 ≤ (displayResults (result :: rest)).count (cardHtml r)) ∧
    (inputs.clear_results = false → inputs.uploaded_file ≠ [] →
      (runPage generate pilOpen convertSaveJpeg inputs prior).rendered =
        resultsSection ((runPage generate pilOpen convertSaveJpeg inputs prior).results)) := by
  refine ⟨?_, ?_, ?_⟩
  · rw [resultsSection, displayResults, if_neg (List.cons_ne_nil result rest)]
  · intro r hr
    constructor
    · rw [resultsSection, List.count_append]
      exact (two_mul _).symm
    · exact List.count_pos_iff.mpr
        (cardHtml_mem_displayResults result rest r hr)
  · intro hc hu
    rw [runPage_main generate pilOpen convertSaveJpeg inputs prior hc hu]

/-- C8 amended witness: a concrete card appears twice, and a concrete run with
an upload renders the feed section of its results. -/
theorem c8_amended_feed_rendered_twice_witness :
    (resultsSection [{ title := "t", content := "c" }]).count
        (cardHtml { title := "t", content := "c" }) =
      2 * (displayResults [{ title := "t", content := "c" }]).count
        (cardHtml { title := "t", content := "c" }) ∧
    (runPage (fun _ => Except.ok "ok") (fun _ : List Nat => Except.ok ())
        (fun _ : Unit => Except.ok [1])
        { uploaded_file := [{ name := "leaf.jpg", content := [7] }]
          find_disease := true
          suggestions := false
          custom_question := false
          clear_results := false
          custom_user_prompt := "" } []).rendered =
      resultsSection ((runPage (fun _ => Except.ok "ok") (fun _ : List Nat => Except.ok ())
        (fun _ : Unit => Except.ok [1])
        { uploaded_file := [{ name := "leaf.jpg", content := [7] }]
          find_disease := true
          suggestions := false
          custom_question := false
          clear_results := false
          custom_user_prompt := "" } []).results) :=
  ⟨((c8_amended_feed_rendered_twice (fun _ => Except.ok "ok")
      (fun _ : List Nat => Except.ok ()) (fun _ : Unit => Except.ok [1])
      { uploaded_file := [{ name := "leaf.jpg", content := [7] }]
        find_disease := true
        suggestions := false
        custom_question := false
        clear_results := false
        custom_user_prompt := "" } [] { title := "t", content := "c" } []).2.1
      { title := "t", content := "c" } (List.mem_singleton.mpr rfl)).1,
   (c8_amended_feed_rendered_twice (fun _ => Except.ok "ok")
      (fun _ : List Nat => Except.ok ()) (fun _ : Unit => Except.ok [1])
      { uploaded_file := [{ name := "leaf.jpg", content := [7] }]
        find_disease := true
        suggestions := false
        custom_question := false
        clear_results := false
        custom_user_prompt := "" } [] { title := "t", content := "c" } []).2.2
      rfl (List.cons_ne_nil _ _)⟩

/-- Page inputs where only the Ask (Custom Prompt) button is pressed. -/
def customOnlyInputs (files : List UploadedFile) (custom_user_prompt : String) :
    PageInputs :=
  { uploaded_file := files
    find_disease := false
    suggestions := false
    custom_question := true
    clear_results := false
    custom_user_prompt := custom_user_prompt }

/-- Page inputs where no button is pressed. -/
def idleInputs (files : List UploadedFile) (custom_user_prompt : String) : PageInputs :=
  { uploaded_file := files
    find_disease := false
    suggestions := false
    custom_question := false
    clear_results := false
    custom_user_prompt := custom_user_prompt }

/-- C9: pressing Ask with an empty or whitespace-only question calls the model
zero times and leaves the results list unchanged, showing the warning instead;
with a non-blank stripped question the model is called once per converted
image with the interpolated prompt. -/
theorem c9_blank_custom_question_guard {Image : Type}
    (generate : GeminiRequest → Except String String)
    (pilOpen : List Nat → Except String Image)
    (convertSaveJpeg : Image → Except String (List Nat))
    (file : UploadedFile) (rest : List UploadedFile) (custom_user_prompt : String)
    (prior : List ResultEntry) :
    (strip custom_user_prompt = "" →
      (runPage generate pilOpen convertSaveJpeg
          (customOnlyInputs (file :: rest) custom_user_prompt) prior).results = prior ∧
      (runPage generate pilOpen convertSaveJpeg
          (customOnlyInputs (file :: rest) custom_user_prompt) prior).requests = [] ∧
      PageWarning.emptyCustomQuestion ∈
        (runPage generate pilOpen convertSaveJpeg
          (customOnlyInputs (file :: rest) custom_user_prompt) prior).warnings) ∧
    (strip custom_user_prompt ≠ "" →
      (runPage generate pilOpen convertSaveJpeg
          (customOnlyInputs (file :: rest) custom_user_prompt) prior).requests =
        ((processUploads pilOpen convertSaveJpeg (file :: rest)).2.1).map
          (fun image_bytes =>
            geminiRequest image_bytes (combined_prompt custom_user_prompt) 200)) := by
  constructor
  · intro h
    rw [runPage_main generate pilOpen convertSaveJpeg
      (customOnlyInputs (file :: rest) custom_user_prompt) prior rfl
      (List.cons_ne_nil file rest)]
    refine ⟨?_, ?_, ?_⟩ <;> simp [customOnlyInputs, custom_question_handler, h]
  · intro h
    rw [runPage_main generate pilOpen convertSaveJpeg
      (customOnlyInputs (file :: rest) custom_user_prompt) prior rfl
      (List.cons_ne_nil file rest)]
    simp [customOnlyInputs, custom_question_handler, h, geminiLoopFrom_eq]

/-- C9 witness: a whitespace-only question leaves the results empty and issues
no request; the question "why?" issues the interpolated request. -/
theorem c9_blank_custom_question_guard_witness :
    (runPage (fun _ => Except.ok "ok") (fun _ : List Nat => Except.ok ())
        (fun _ : Unit => Except.ok [1])
        (customOnlyInputs [{ name := "leaf.jpg", content := [7] }] "   ") []).results =
      [] ∧
    (runPage (fun _ => Except.ok "ok") (fun _ : List Nat => Except.ok ())
        (fun _ : Unit => Except.ok [1])
        (customOnlyInputs [{ name := "leaf.jpg", content := [7] }] "why?") []).requests =
      ((processUploads (fun _ : List Nat => Except.ok ()) (fun _ : Unit => Except.ok [1])
          [{ name := "leaf.jpg", content := [7] }]).2.1).map
        (fun image_bytes => geminiRequest image_bytes (combined_prompt "why?") 200) :=
  ⟨((c9_blank_custom_question_guard (fun _ => Except.ok "ok")
      (fun _ : List Nat => Except.ok ()) (fun _ : Unit => Except.ok [1])
      { name := "leaf.jpg", content := [7] } [] "   " []).1 (by decide)).1,
   (c9_blank_custom_question_guard (fun _ => Except.ok "ok")
      (fun _ : List Nat => Except.ok ()) (fun _ : Unit => Except.ok [1])
      { name := "leaf.jpg", content := [7] } [] "why?" []).2 (by decide)⟩

/-- C10: the oversize warning fires exactly when the summed length of the
converted JPEG byte strings exceeds 18 MB (the float `total / (1024*1024)`
compared against 18 is exact here); a file that fails to open contributes
nothing to the sum, and the warning in a run is computed from the converted
byte strings, not the original uploads. -/
theorem c10_oversize_warning_threshold {Image : Type}
    (generate : GeminiRequest → Except String String)
    (pilOpen : List Nat → Except String Image)
    (convertSaveJpeg : Image → Except String (List Nat))
    (image_bytes_list : List (List Nat)) (file : UploadedFile)
    (rest : List UploadedFile) (e : String)
    (custom_user_prompt : String) (prior : List ResultEntry) :
    (oversize_warning image_bytes_list = true ↔
      18 * (1024 * 1024) < (image_bytes_list.map List.length).sum) ∧
    (pilOpen file.content = Except.error e →
      (processUploads pilOpen convertSaveJpeg (file :: rest)).2.1 =
        (processUploads pilOpen convertSaveJpeg rest).2.1) ∧
    ((runPage generate pilOpen convertSaveJpeg
        (idleInputs (file :: rest) custom_user_prompt) prior).warnings =
      if oversize_warning (processUploads pilOpen convertSaveJpeg (file :: rest)).2.1 then
        [PageWarning.oversize (total_size_mb
          (processUploads pilOpen convertSaveJpeg (file :: rest)).2.1)]
      else []) := by
  refine ⟨oversize_warning_iff image_bytes_list, ?_, ?_⟩
  · intro h
    simp [processUploads, h]
  · rw [runPage_main generate pilOpen convertSaveJpeg
      (idleInputs (file :: rest) custom_user_prompt) prior rfl
      (List.cons_ne_nil file rest)]
    simp [idleInputs]

/-- C10 witness: one converted byte string one byte past 18 MB trips the
warning, and a file whose open fails is excluded from the converted list. -/
theorem c10_oversize_warning_threshold_witness :
    oversize_warning [List.replicate 18874369 0] = true ∧
    (processUploads (fun _ : List Nat => Except.error "cannot identify image file")
        (fun _ : Unit => Except.ok [1])
        [{ name := "bad.png", content := [0] }]).2.1 =
      (processUploads (fun _ : List Nat => Except.error "cannot identify image file")
        (fun _ : Unit => Except.ok [1]) ([] : List UploadedFile)).2.1 :=
  ⟨(c10_oversize_warning_threshold (fun _ => Except.ok "ok")
      (fun _ : List Nat => Except.error "cannot identify image file")
      (fun _ : Unit => Except.ok [1]) [List.replicate 18874369 0]
      { name := "bad.png", content := [0] } [] "cannot identify image file" "" []).1.mpr
      (by simp only [List.map_cons, List.map_nil, List.length_replicate,
            List.sum_cons, List.sum_nil]
          norm_num),
   (c10_oversize_warning_threshold (fun _ => Except.ok "ok")
      (fun _ : List Nat => Except.error "cannot identify image file")
      (fun _ : Unit => Except.ok [1]) [List.replicate 18874369 0]
      { name := "bad.png", content := [0] } [] "cannot identify image file" "" []).2.1
      rfl⟩

end AgroApp
